import Mathlib

/-!
Shallow embedding of `src/vllm_server_manager.py`: the `VLLMServerManager`
class, which supervises a single vLLM server subprocess through three
operations (`start_server`, `wait_for_health`, `terminate`).

External effects (subprocess spawning, `poll()` observations, HTTP GET
outcomes, the 5-second wait after SIGTERM, torch availability) are modelled
as explicit environment parameters; each operation returns its result
together with the post-call `ManagerState`, so that behaviour on raised
exceptions is also captured (a Python exception leaves the object in
whatever state the mutations so far produced).
-/

namespace VLLMServer

/-- A `subprocess.Popen` handle, identified by its pid. -/
structure Popen where
  pid : Nat
deriving DecidableEq, Repr

/-- The two instance fields set by `VLLMServerManager.__init__`:
`self._process` and `self._port`. -/
structure ManagerState where
  _process : Option Popen
  _port : Option Int
deriving DecidableEq, Repr

/-- Embedding of `__init__`: both fields start as `None`. -/
def initState : ManagerState := ⟨none, none⟩

/-- The command line built by `start_server`:
`[sys.executable, "-m", "vllm.entrypoints.openai.api_server", "--model", model_id, "--port", str(port)]`. -/
def server_cmd (python model_id : String) (port : Int) : List String :=
  [python, "-m", "vllm.entrypoints.openai.api_server",
   "--model", model_id, "--port", toString port]

/-- Environment observed by one `start_server` call: whether
`self._process.poll()` returns `None` (child still running), and the outcome
of `subprocess.Popen` (`some h` spawn succeeded with handle `h`; `none` the
spawn raised). -/
structure StartEnv where
  alive : Bool
  spawn : Option Popen
deriving DecidableEq, Repr

/-- Result of a `start_server` call. -/
inductive StartResult where
  /-- Returned normally. -/
  | ok : StartResult
  /-- Raised `RuntimeError("A vLLM server is already running. Terminate it first.")`. -/
  | alreadyRunning : StartResult
  /-- The `subprocess.Popen` call raised; the exception propagates. -/
  | spawnError : StartResult
deriving DecidableEq, Repr

/-- Embedding of `start_server(model_id, port)`: raise if a tracked process is still
alive, else record the port, then spawn the child and record its handle.
The post-call state is returned in every case, including the raising ones. -/
def start_server (env : StartEnv) (st : ManagerState)
    (model_id : String) (port : Int) : StartResult × ManagerState :=
  if st._process.isSome ∧ env.alive then
    (.alreadyRunning, st)
  else
    let st1 : ManagerState := { st with _port := some port }
    match env.spawn with
    | none => (.spawnError, st1)
    | some h => (.ok, { st1 with _process := some h })

/-- Outcome of one `requests.get(url, timeout=2)` call inside the
`wait_for_health` polling loop. -/
inductive PollAttempt where
  /-- The GET returned a response with this HTTP status code. -/
  | resp (status : Nat) : PollAttempt
  /-- The GET raised `requests.ConnectionError`. -/
  | connError : PollAttempt
  /-- The GET raised some exception that is not a `requests.ConnectionError`
  (for example `requests.Timeout` on a slow read). -/
  | otherError : PollAttempt
deriving DecidableEq, Repr

/-- Result of a `wait_for_health` call. -/
inductive HealthOutcome where
  /-- Returned normally after observing a 200 response. -/
  | healthy : HealthOutcome
  /-- Raised `RuntimeError("Server has not been started yet.")`. -/
  | notStartedError : HealthOutcome
  /-- Raised `VLLMServerHealthTimeout(...)`; per the message text the
  exception carries the timeout and the port. -/
  | healthTimeout (port timeout : Int) : HealthOutcome
  /-- An exception other than `requests.ConnectionError` from attempt `i`
  propagated out of the loop. -/
  | uncaught (i : Nat) : HealthOutcome
deriving DecidableEq, Repr

/-- The polling environment: for the `i`-th `requests.get` call, its outcome
and how many extra seconds (beyond the unconditional `time.sleep(2)`) that
iteration consumed. -/
def HealthEnv := Nat → PollAttempt × Nat

/-- The `while time.monotonic() < deadline` loop of `wait_for_health`.
`elapsed` is the monotonic time since entry; the deadline is `timeout`
seconds after entry.  Each non-returning iteration spends the 2-second
`time.sleep(2)` plus the environment-chosen GET duration.  Returns the
outcome together with the number of `requests.get` calls issued. -/
def pollLoop (env : HealthEnv) (port timeout : Int)
    (i : Nat) (elapsed : Nat) : HealthOutcome × Nat :=
  if h : (elapsed : Int) < timeout then
    match env i with
    | (.resp s, extra) =>
      if s = 200 then (.healthy, i + 1)
      else pollLoop env port timeout (i + 1) (elapsed + 2 + extra)
    | (.connError, extra) => pollLoop env port timeout (i + 1) (elapsed + 2 + extra)
    | (.otherError, _) => (.uncaught i, i + 1)
  else
    (.healthTimeout port timeout, i)
termination_by (timeout - elapsed).toNat
decreasing_by all_goals omega

/-- Embedding of `wait_for_health(timeout)`: usage error when no port is recorded,
otherwise run the polling loop.  The method never assigns to the instance
fields, so the post-call state is the input state. -/
def wait_for_health (env : HealthEnv) (st : ManagerState) (timeout : Int) :
    HealthOutcome × Nat × ManagerState :=
  match st._port with
  | none => (.notStartedError, 0, st)
  | some p =>
    let r := pollLoop env p timeout 0 0
    (r.1, r.2, st)

/-- Externally visible steps taken by `terminate` / `_free_vram`, in order. -/
inductive Action where
  /-- `self._process.terminate()` — SIGTERM. -/
  | sigterm : Action
  /-- `self._process.wait(timeout=5)`. -/
  | waitTimeout5 : Action
  /-- `self._process.kill()` — SIGKILL. -/
  | sigkill : Action
  /-- The final blocking `self._process.wait()` that reaps the exit. -/
  | waitReap : Action
  /-- `gc.collect()`. -/
  | gcCollect : Action
  /-- `torch.cuda.empty_cache()`. -/
  | cudaEmptyCache : Action
  /-- `torch.cuda.ipc_collect()`. -/
  | cudaIpcCollect : Action
deriving DecidableEq, Repr

/-- Environment observed by one `terminate` call: whether
`self._process.poll()` reports the child already exited, whether the child
exits within the 5-second `wait(timeout=5)` after SIGTERM, and whether
torch is importable / CUDA is available for `_free_vram`. -/
structure TermEnv where
  pollExited : Bool
  exitsWithin5 : Bool
  torchInstalled : Bool
  cudaAvailable : Bool
deriving DecidableEq, Repr

/-- Embedding of `_free_vram()`: `gc.collect()`, then best-effort
`torch.cuda.empty_cache()` / `torch.cuda.ipc_collect()`; if torch is not
installed the `ImportError` is swallowed, and if CUDA is unavailable the
cache calls are skipped. -/
def free_vram (torchInstalled cudaAvailable : Bool) : List Action :=
  .gcCollect ::
    (if torchInstalled ∧ cudaAvailable then [.cudaEmptyCache, .cudaIpcCollect] else [])

/-- Embedding of `terminate()`: if no process is tracked or it has already exited, go
straight to `_free_vram` and return (the early-return path does not assign
the fields).  Otherwise SIGTERM, wait up to 5 seconds, escalate to SIGKILL
plus a reaping wait if the child is still alive, clear both fields, then
`_free_vram`.  Returns the post-call state and the ordered action trace. -/
def terminate (env : TermEnv) (st : ManagerState) : ManagerState × List Action :=
  match st._process with
  | none => (st, free_vram env.torchInstalled env.cudaAvailable)
  | some _ =>
    if env.pollExited then
      (st, free_vram env.torchInstalled env.cudaAvailable)
    else
      let killActs : List Action :=
        if env.exitsWithin5 then [.sigterm, .waitTimeout5]
        else [.sigterm, .waitTimeout5, .sigkill, .waitReap]
      (⟨none, none⟩, killActs ++ free_vram env.torchInstalled env.cudaAvailable)

/-- The implicit data-model invariant: whenever `self._process` is set,
`self._port` is set as well. -/
def portTracksProcess (st : ManagerState) : Prop :=
  st._process.isSome → st._port.isSome

instance (st : ManagerState) : Decidable (portTracksProcess st) := by
  unfold portTracksProcess; infer_instance

/-! Helper lemmas about the polling loop, shared by several claims. -/

/-- If no attempt returns a 200 response and no attempt raises outside
`requests.ConnectionError`, the loop always ends in the timeout exception. -/
theorem pollLoop_no_200 (env : HealthEnv) (port timeout : Int)
    (hres : ∀ k s, (env k).1 = .resp s → s ≠ 200)
    (hoth : ∀ k, (env k).1 ≠ .otherError)
    (i elapsed : Nat) :
    (pollLoop env port timeout i elapsed).1 = .healthTimeout port timeout := by
  rw [pollLoop]
  split
  case isTrue hc =>
    rcases henv : env i with ⟨att, extra⟩
    rcases att with s | _ | _
    · have hs : s ≠ 200 := hres i s (by rw [henv])
      simp only [hs, ite_false]
      exact pollLoop_no_200 env port timeout hres hoth (i + 1) (elapsed + 2 + extra)
    · exact pollLoop_no_200 env port timeout hres hoth (i + 1) (elapsed + 2 + extra)
    · exact absurd (by rw [henv]) (hoth i)
  case isFalse hc => rfl
termination_by (timeout - elapsed).toNat
decreasing_by all_goals omega

/-- If no attempt raises outside `requests.ConnectionError`, the loop never
lets an exception from an attempt escape: its outcome is never `uncaught`. -/
theorem pollLoop_ne_uncaught (env : HealthEnv) (port timeout : Int)
    (hoth : ∀ k, (env k).1 ≠ .otherError) (i elapsed : Nat) (j : Nat) :
    (pollLoop env port timeout i elapsed).1 ≠ .uncaught j := by
  rw [pollLoop]
  split
  case isTrue hc =>
    rcases henv : env i with ⟨att, extra⟩
    rcases att with s | _ | _
    · by_cases hs : s = 200
      · simp [hs]
      · simp only [hs, ite_false]
        exact pollLoop_ne_uncaught env port timeout hoth (i + 1) (elapsed + 2 + extra) j
    · exact pollLoop_ne_uncaught env port timeout hoth (i + 1) (elapsed + 2 + extra) j
    · exact absurd (by rw [henv]) (hoth i)
  case isFalse hc => simp
termination_by (timeout - elapsed).toNat
decreasing_by all_goals omega

/-- C7: for every Supervisor on which `start` has never been called (no port
recorded), `wait_for_health` raises the usage error instead of polling: it
returns the `RuntimeError` outcome, issues zero HTTP requests, and leaves the
state unchanged. -/
theorem wait_for_health_without_start_raises_usage_error (env : HealthEnv)
    (st : ManagerState) (timeout : Int) (hp : st._port = none) :
    wait_for_health env st timeout = (.notStartedError, 0, st) := by
  simp [wait_for_health, hp]

/-- Witness for C7 at a concrete input: the freshly constructed manager. -/
theorem wait_for_health_without_start_raises_usage_error_witness :
    wait_for_health (fun _ => (.connError, 0)) initState 120
      = (.notStartedError, 0, initState) :=
  wait_for_health_without_start_raises_usage_error (fun _ => (.connError, 0))
    initState 120 rfl

/-- C10: after `start` (port known), a call with `timeout ≤ 0` fails the
deadline check before the first poll: it raises `HealthTimeout` immediately
and issues zero HTTP requests. -/
theorem wait_for_health_nonpositive_timeout_no_request (env : HealthEnv)
    (st : ManagerState) (p timeout : Int) (hp : st._port = some p)
    (ht : timeout ≤ 0) :
    wait_for_health env st timeout = (.healthTimeout p timeout, 0, st) := by
  have h0 : ¬(((0 : Nat) : Int) < timeout) := by omega
  simp only [wait_for_health, hp]
  rw [pollLoop, dif_neg h0]

/-- Witness for C10 at a concrete input: port 8000, timeout 0. -/
theorem wait_for_health_nonpositive_timeout_no_request_witness :
    wait_for_health (fun _ => (.connError, 0)) ⟨some ⟨1⟩, some 8000⟩ 0
      = (.healthTimeout 8000 0, 0, ⟨some ⟨1⟩, some 8000⟩) :=
  wait_for_health_nonpositive_timeout_no_request (fun _ => (.connError, 0))
    ⟨some ⟨1⟩, some 8000⟩ 8000 0 rfl (by decide)

/-- C4 (counterexample to the claim as stated): a run in which no poll
attempt observes a 200 before the timeout elapses need not fail with
`VLLMServerHealthTimeout`: when the first GET raises an exception that is
not a `requests.ConnectionError`, that exception propagates instead. -/
theorem wait_for_health_no_200_not_always_timeout :
    (wait_for_health (fun _ => (.otherError, 1)) ⟨some ⟨2⟩, some 9000⟩ 60).1
      ≠ .healthTimeout 9000 60 := by
  simp only [wait_for_health]
  rw [pollLoop]
  norm_num
  decide

/-- C4 (amended): if `start` has been called and every poll attempt either
returns a non-200 response or raises `requests.ConnectionError` (so no 200
is observed before the timeout elapses and no other exception is raised),
the call fails with the distinct `VLLMServerHealthTimeout` outcome, carrying
both the port and the timeout value. -/
theorem wait_for_health_no_200_raises_health_timeout (env : HealthEnv)
    (st : ManagerState) (p timeout : Int) (hp : st._port = some p)
    (hres : ∀ k s, (env k).1 = .resp s → s ≠ 200)
    (hoth : ∀ k, (env k).1 ≠ .otherError) :
    (wait_for_health env st timeout).1 = .healthTimeout p timeout := by
  simp only [wait_for_health, hp]
  exact pollLoop_no_200 env p timeout hres hoth 0 0

/-- Witness for C4 at a concrete input: every poll is refused. -/
theorem wait_for_health_no_200_raises_health_timeout_witness :
    (wait_for_health (fun _ => (.connError, 0)) ⟨some ⟨1⟩, some 8000⟩ 4).1
      = .healthTimeout 8000 4 :=
  wait_for_health_no_200_raises_health_timeout (fun _ => (.connError, 0))
    ⟨some ⟨1⟩, some 8000⟩ 8000 4 rfl
    (fun _ _ hk => PollAttempt.noConfusion hk)
    (fun _ hk => PollAttempt.noConfusion hk)

/-- C2 (counterexample to the claim as stated): an exception from a failed
poll attempt CAN surface to the caller.  The `except` clause catches only
`requests.ConnectionError`, so when the first GET raises some other
exception (for example a read timeout), `wait_for_health` propagates it
instead of retrying. -/
theorem wait_for_health_surfaces_non_connection_error :
    (wait_for_health (fun _ => (.otherError, 0)) ⟨some ⟨1⟩, some 8000⟩ 120).1
      = .uncaught 0 := by
  simp only [wait_for_health]
  rw [pollLoop]
  norm_num

/-- C2 (amended): during every iteration, a response with status other than
200 and a `requests.ConnectionError` are both swallowed locally and the loop
retries, and no exception of these two kinds is ever surfaced: as long as no
attempt raises outside `requests.ConnectionError`, the outcome is never the
propagation of an attempt's exception.  (Exceptions that are not
`requests.ConnectionError` do propagate; see the counterexample.) -/
theorem wait_for_health_swallows_non200_and_connection_errors (env : HealthEnv)
    (port timeout : Int) (i elapsed : Nat) (st : ManagerState) :
    ((elapsed : Int) < timeout → ∀ s e, env i = (.resp s, e) → s ≠ 200 →
      pollLoop env port timeout i elapsed
        = pollLoop env port timeout (i + 1) (elapsed + 2 + e)) ∧
    ((elapsed : Int) < timeout → ∀ e, env i = (.connError, e) →
      pollLoop env port timeout i elapsed
        = pollLoop env port timeout (i + 1) (elapsed + 2 + e)) ∧
    ((∀ k, (env k).1 ≠ .otherError) →
      ∀ j, (wait_for_health env st timeout).1 ≠ .uncaught j) := by
  refine ⟨?_, ?_, ?_⟩
  · intro hc s e henv hs
    conv_lhs => rw [pollLoop]
    rw [dif_pos hc, henv]
    simp [hs]
  · intro hc e henv
    conv_lhs => rw [pollLoop]
    rw [dif_pos hc, henv]
  · intro hoth j
    cases hp : st._port with
    | none => simp [wait_for_health, hp]
    | some p =>
      simp only [wait_for_health, hp]
      exact pollLoop_ne_uncaught env p timeout hoth 0 0 j

/-- Witness for the amended C2 at concrete inputs: one refused connection is
swallowed and the loop advances, and a run of refused connections never
surfaces an exception. -/
theorem wait_for_health_swallows_non200_and_connection_errors_witness :
    pollLoop (fun _ => (.connError, 0)) 8000 120 0 0
      = pollLoop (fun _ => (.connError, 0)) 8000 120 1 2 ∧
    (wait_for_health (fun _ => (.connError, 0)) ⟨some ⟨1⟩, some 8000⟩ 120).1
      ≠ .uncaught 0 := by
  have H := wait_for_health_swallows_non200_and_connection_errors
    (fun _ => (.connError, 0)) 8000 120 0 0 ⟨some ⟨1⟩, some 8000⟩
  refine ⟨?_, H.2.2 (fun _ hk => PollAttempt.noConfusion hk) 0⟩
  have h2 := H.2.1 (by norm_num) 0 rfl
  simpa using h2

/-- C1 (counterexample to the claim as stated): when a child was started but
has already exited on its own, `terminate` takes the early-return path and
leaves BOTH fields set: the stale handle and the port are retained, not
cleared. -/
theorem terminate_dead_child_keeps_fields :
    ((terminate ⟨true, true, true, true⟩ ⟨some ⟨7⟩, some 8000⟩).1)._process ≠ none ∧
    ((terminate ⟨true, true, true, true⟩ ⟨some ⟨7⟩, some 8000⟩).1)._port ≠ none := by
  decide

/-- C1 (amended): a normally returning `terminate` clears both state fields
exactly when a tracked child is still alive at entry; on the early-return
path — no process tracked, or the child already exited on its own — the
fields are left unchanged (so they stay cleared only if they already were). -/
theorem terminate_clears_fields_iff_live_child (env : TermEnv) (st : ManagerState) :
    (st._process ≠ none → env.pollExited = false →
      (terminate env st).1 = ⟨none, none⟩) ∧
    ((st._process = none ∨ env.pollExited = true) → (terminate env st).1 = st) := by
  cases hp : st._process with
  | none => simp [terminate, hp]
  | some h =>
    cases hpoll : env.pollExited <;> simp [terminate, hp, hpoll]

/-- Witness for the amended C1 at a concrete input: a live child is
terminated and both fields end up cleared. -/
theorem terminate_clears_fields_iff_live_child_witness :
    (terminate ⟨false, true, true, true⟩ ⟨some ⟨3⟩, some 8000⟩).1 = ⟨none, none⟩ :=
  (terminate_clears_fields_iff_live_child ⟨false, true, true, true⟩
      ⟨some ⟨3⟩, some 8000⟩).1 (by decide) rfl

/-- C5: `terminate` on a Supervisor that never started succeeds, leaves the
state cleared and performs only the memory-release step; and calling
`terminate` a second time in a row performs no process-kill action — its
trace is exactly the memory-release step.  The hypothesis encodes that a
child observed dead stays dead: the only way the first call keeps a handle
is having observed the child already exited. -/
theorem terminate_safe_and_idempotent (env1 env2 : TermEnv) (st : ManagerState)
    (hdead : (terminate env1 st).1._process ≠ none → env2.pollExited = true) :
    terminate env1 initState
        = (initState, free_vram env1.torchInstalled env1.cudaAvailable) ∧
    (terminate env2 (terminate env1 st).1).2
        = free_vram env2.torchInstalled env2.cudaAvailable := by
  constructor
  · rfl
  · set st1 := (terminate env1 st).1 with hst1
    cases hp : st1._process with
    | none => simp [terminate, hp]
    | some h =>
      have h2 := hdead (by rw [hp]; exact fun hx => Option.noConfusion hx)
      simp [terminate, hp, h2]

/-- Witness for C5 at concrete inputs: a never-started manager, then a
started manager terminated twice. -/
theorem terminate_safe_and_idempotent_witness :
    terminate ⟨false, false, false, false⟩ initState
        = (initState, free_vram false false) ∧
    (terminate ⟨true, true, true, true⟩
        (terminate ⟨false, false, false, false⟩ ⟨some ⟨9⟩, some 8000⟩).1).2
        = free_vram true true :=
  terminate_safe_and_idempotent ⟨false, false, false, false⟩ ⟨true, true, true, true⟩
    ⟨some ⟨9⟩, some 8000⟩ (fun _ => rfl)

/-- C6: when `terminate` finds the tracked child still alive it follows
exactly the escalation sequence: SIGTERM, wait up to 5 seconds, and only if
the child is still alive after that wait, SIGKILL followed by the reaping
wait; the memory-release step comes after. -/
theorem terminate_escalation_sequence (env : TermEnv) (st : ManagerState)
    (h : Popen) (hp : st._process = some h) (halive : env.pollExited = false) :
    (terminate env st).2 =
      [.sigterm, .waitTimeout5]
        ++ (if env.exitsWithin5 then [] else [.sigkill, .waitReap])
        ++ free_vram env.torchInstalled env.cudaAvailable := by
  cases he : env.exitsWithin5 <;> simp [terminate, hp, halive, he]

/-- Witness for C6 at a concrete input: a child that ignores SIGTERM, so the
kill escalation fires. -/
theorem terminate_escalation_sequence_witness :
    (terminate ⟨false, false, true, true⟩ ⟨some ⟨2⟩, some 8000⟩).2 =
      [.sigterm, .waitTimeout5]
        ++ (if (⟨false, false, true, true⟩ : TermEnv).exitsWithin5 then []
            else [.sigkill, .waitReap])
        ++ free_vram true true :=
  terminate_escalation_sequence ⟨false, false, true, true⟩ ⟨some ⟨2⟩, some 8000⟩
    ⟨2⟩ rfl rfl

/-- C3: `start_server` raises the "already running" usage error if and only
if a previously started child is still alive (tracked handle present and the
non-blocking poll reports it running); starting twice while the first child
is alive raises, and starting after a terminate succeeds (the hypothesis on
the post-terminate poll encodes that a child observed dead stays dead). -/
theorem start_server_already_running_iff_alive (env : StartEnv)
    (st : ManagerState) (m : String) (p : Int) :
    ((start_server env st m p).1 = .alreadyRunning ↔
      st._process ≠ none ∧ env.alive = true) ∧
    (∀ (env2 : StartEnv) (m2 : String) (p2 : Int) (h : Popen),
      env.spawn = some h → env2.alive = true →
      (start_server env2 (start_server env st m p).2 m2 p2).1 = .alreadyRunning) ∧
    (∀ (tenv : TermEnv) (env3 : StartEnv) (m3 : String) (p3 : Int) (h3 : Popen),
      env3.spawn = some h3 →
      ((terminate tenv (start_server env st m p).2).1._process ≠ none →
        env3.alive = false) →
      (start_server env3 (terminate tenv (start_server env st m p).2).1 m3 p3).1
        = .ok) := by
  refine ⟨?_, ?_, ?_⟩
  · rcases hp : st._process with _ | h0 <;>
      rcases ha : env.alive with _ | _ <;>
      rcases hs : env.spawn with _ | h1 <;>
        simp [start_server, hp, ha, hs]
  · intro env2 m2 p2 h hspawn ha2
    rcases hp : st._process with _ | h0 <;>
      rcases ha : env.alive with _ | _ <;>
        simp [start_server, hp, ha, hspawn, ha2]
  · intro tenv env3 m3 p3 h3 hspawn3 hdead3
    set st3 := (terminate tenv (start_server env st m p).2).1 with hst3
    rcases hq : st3._process with _ | q0
    · simp [start_server, hq, hspawn3]
    · have ha3 := hdead3 (by rw [hq]; exact fun hx => Option.noConfusion hx)
      simp [start_server, hq, ha3, hspawn3]

/-- Witness for C3 at concrete inputs: a fresh manager started once, started
again while alive, and started again after a terminate. -/
theorem start_server_already_running_iff_alive_witness :
    ((start_server ⟨false, some ⟨1⟩⟩ initState "m" 8000).1 = .alreadyRunning ↔
      initState._process ≠ none ∧ (⟨false, some ⟨1⟩⟩ : StartEnv).alive = true) ∧
    (start_server ⟨true, some ⟨2⟩⟩
        (start_server ⟨false, some ⟨1⟩⟩ initState "m" 8000).2 "m" 8001).1
      = .alreadyRunning ∧
    (start_server ⟨false, some ⟨3⟩⟩
        (terminate ⟨false, true, false, false⟩
          (start_server ⟨false, some ⟨1⟩⟩ initState "m" 8000).2).1 "m" 8002).1
      = .ok := by
  have H := start_server_already_running_iff_alive ⟨false, some ⟨1⟩⟩ initState "m" 8000
  exact ⟨H.1,
    H.2.1 ⟨true, some ⟨2⟩⟩ "m" 8001 ⟨1⟩ rfl rfl,
    H.2.2 ⟨false, true, false, false⟩ ⟨false, some ⟨3⟩⟩ "m" 8002 ⟨3⟩ rfl
      (fun _ => rfl)⟩

/-- C8: the invariant "if the process-handle field is set then the port
field is set" holds for the initial state and is preserved by every
operation through its returned post-call state, which covers both normal
returns and raising calls, since each embedded operation returns the
post-call state alongside every outcome. -/
theorem process_implies_port_invariant (st : ManagerState)
    (hst : portTracksProcess st) :
    portTracksProcess initState ∧
    (∀ (env : StartEnv) (m : String) (p : Int),
      portTracksProcess (start_server env st m p).2) ∧
    (∀ (env : HealthEnv) (timeout : Int),
      portTracksProcess (wait_for_health env st timeout).2.2) ∧
    (∀ env : TermEnv, portTracksProcess (terminate env st).1) := by
  refine ⟨by decide, ?_, ?_, ?_⟩
  · intro env m p
    unfold start_server
    split
    · exact hst
    · cases env.spawn <;> simp [portTracksProcess]
  · intro env timeout
    have h22 : (wait_for_health env st timeout).2.2 = st := by
      cases hp : st._port <;> simp [wait_for_health, hp]
    rw [h22]; exact hst
  · intro env
    rcases hp : st._process with _ | h0
    · simpa [terminate, hp] using hst
    · cases he : env.pollExited
      · simp [terminate, hp, he, portTracksProcess]
      · simpa [terminate, hp, he] using hst

/-- Witness for C8 at a concrete input: terminating the initial state. -/
theorem process_implies_port_invariant_witness :
    portTracksProcess (terminate ⟨false, false, false, false⟩ initState).1 :=
  (process_implies_port_invariant initState (by decide)).2.2.2
    ⟨false, false, false, false⟩

/-- C9: `start_server` is not atomic on failure: the port field is assigned
before the spawn, so when the guard passes and the spawn raises, the call
propagates the spawn exception and leaves the manager with the port updated
to the new value while the process handle is unchanged from before the call. -/
theorem start_server_spawn_failure_leaves_port_updated (env : StartEnv)
    (st : ManagerState) (m : String) (p : Int)
    (hguard : ¬(st._process.isSome = true ∧ env.alive = true))
    (hspawn : env.spawn = none) :
    start_server env st m p = (.spawnError, { st with _port := some p }) := by
  simp only [start_server]
  rw [if_neg hguard, hspawn]

/-- Witness for C9 at a concrete input: spawning fails on a fresh manager. -/
theorem start_server_spawn_failure_leaves_port_updated_witness :
    start_server ⟨false, none⟩ initState "m" 8000
      = (.spawnError, { initState with _port := some 8000 }) :=
  start_server_spawn_failure_leaves_port_updated ⟨false, none⟩ initState "m" 8000
    (by decide) rfl

end VLLMServer
